import Mathlib

/-!
Verification of the `anchor-zeta` universal-nft Solana program.

The program's byte-level message codec, its state-mutating entry points and
its admin guards are embedded shallowly:

* bytes are `List Nat` (each element a byte value);
* Rust slice indexing `message[a..b]` is modelled by `checkedSlice`, whose
  `none` result marks the out-of-bounds abort of the Rust indexing
  operation, so a decoder result of `none` means the Rust code aborts
  instead of returning a typed error;
* `u64` arithmetic is `Nat` with the `checked_add` overflow test made
  explicit against `u64MAX`;
* account mutations performed through CPI (token mint/burn, record writes)
  are reflected in the returned result records; an `Except.error` result
  models the transaction failing atomically with that error code, with no
  state mutation committed.

Definitions mirror, function by function, `lib.rs`,
`universal_nft_core.rs` and `universal_nft.rs` of
`programs/universal-nft/src`.
-/

set_option maxRecDepth 100000

namespace AnchorZeta

/-- Byte slice `l[start .. start+len]` (unchecked; short when out of range). -/
def slice (l : List Nat) (start len : Nat) : List Nat :=
  (l.drop start).take len

/-- Rust slice indexing `l[start .. start+len]`: `none` models the
out-of-bounds abort of the Rust runtime. -/
def checkedSlice (l : List Nat) (start len : Nat) : Option (List Nat) :=
  if start + len ≤ l.length then some (slice l start len) else none

/-- Big-endian bytes to `Nat` (`u64::from_be_bytes` on 8-byte slices). -/
def beToNat (l : List Nat) : Nat :=
  l.foldl (fun acc b => acc * 256 + b) 0

/-- `u64::to_be_bytes`: the 8 big-endian bytes of `n` (for `n < 2^64`). -/
def beBytes8 (n : Nat) : List Nat :=
  [n / 2 ^ 56 % 256, n / 2 ^ 48 % 256, n / 2 ^ 40 % 256, n / 2 ^ 32 % 256,
   n / 2 ^ 24 % 256, n / 2 ^ 16 % 256, n / 2 ^ 8 % 256, n % 256]

/-- A 32-byte ABI word holding `n` right-justified (top 24 bytes zero). -/
def word32 (n : Nat) : List Nat :=
  List.replicate 24 0 ++ beBytes8 n

/-- The 12 zero bytes padding a 20-byte address to a 32-byte word. -/
def pad12 : List Nat := List.replicate 12 0

/-- The all-zero 20-byte address `[0u8; 20]`. -/
def zeroAddr20 : List Nat := List.replicate 20 0

/-- `u64::MAX`. -/
def u64MAX : Nat := 18446744073709551615

/-- `u64::checked_add` on values below `2^64`. -/
def checkedAdd64 (a b : Nat) : Option Nat :=
  if a + b ≤ u64MAX then some (a + b) else none

/-- UTF-8 continuation byte `0x80..=0xBF`. -/
def isUtf8Cont (b : Nat) : Bool := decide (0x80 ≤ b ∧ b ≤ 0xBF)

/-- Standard UTF-8 validity of a byte sequence, as checked by Rust's
`String::from_utf8`. -/
def validUtf8 : List Nat → Bool
  | [] => true
  | b :: rest =>
    if b < 0x80 then validUtf8 rest
    else if 0xC2 ≤ b ∧ b ≤ 0xDF then
      match rest with
      | c1 :: rest1 => isUtf8Cont c1 && validUtf8 rest1
      | [] => false
    else if b = 0xE0 then
      match rest with
      | c1 :: c2 :: rest2 =>
        decide (0xA0 ≤ c1 ∧ c1 ≤ 0xBF) && isUtf8Cont c2 && validUtf8 rest2
      | _ => false
    else if (0xE1 ≤ b ∧ b ≤ 0xEC) ∨ b = 0xEE ∨ b = 0xEF then
      match rest with
      | c1 :: c2 :: rest2 => isUtf8Cont c1 && isUtf8Cont c2 && validUtf8 rest2
      | _ => false
    else if b = 0xED then
      match rest with
      | c1 :: c2 :: rest2 =>
        decide (0x80 ≤ c1 ∧ c1 ≤ 0x9F) && isUtf8Cont c2 && validUtf8 rest2
      | _ => false
    else if b = 0xF0 then
      match rest with
      | c1 :: c2 :: c3 :: rest3 =>
        decide (0x90 ≤ c1 ∧ c1 ≤ 0xBF) && isUtf8Cont c2 && isUtf8Cont c3 &&
          validUtf8 rest3
      | _ => false
    else if 0xF1 ≤ b ∧ b ≤ 0xF3 then
      match rest with
      | c1 :: c2 :: c3 :: rest3 =>
        isUtf8Cont c1 && isUtf8Cont c2 && isUtf8Cont c3 && validUtf8 rest3
      | _ => false
    else if b = 0xF4 then
      match rest with
      | c1 :: c2 :: c3 :: rest3 =>
        decide (0x80 ≤ c1 ∧ c1 ≤ 0x8F) && isUtf8Cont c2 && isUtf8Cont c3 &&
          validUtf8 rest3
      | _ => false
    else false

/-- The error codes of the program: the union of `ErrorCode` (`lib.rs`)
and `UniversalNFTCoreError` (`universal_nft_core.rs`); both enums convert
into the same Anchor error type at the boundary. -/
inductive ProgError where
  | ProgramPaused
  | Unauthorized
  | InvalidCrossChainMessage
  | NFTOriginNotFound
  | InsufficientTokens
  | TokenIdOverflow
  | NextTokenIdMismatch
  | InvalidMessageFormat
  | InvalidUriEncoding
  | InvalidDestination
  | InvalidGasLimit
  | InvalidAddress
  | GatewayCallFailed
  deriving DecidableEq

/-- `ProgramState` account (`lib.rs`); `Pubkey` values are abstracted to
`Nat` identities, the PDA `bump` byte is account plumbing and omitted. -/
structure ProgramState where
  owner : Nat
  gateway : Nat
  universal_nft_contract : List Nat
  next_token_id : Nat
  paused : Bool
  deriving DecidableEq

/-- `NFTOrigin` account (`lib.rs`); the `bump` byte is omitted. -/
structure NFTOrigin where
  token_id : Nat
  origin_chain : Nat
  origin_token_id : Nat
  metadata_uri : List Nat
  mint : Nat
  created_at : Int
  deriving DecidableEq

def CHAIN_ID_SOLANA_DEVNET : Nat := 901
def CHAIN_ID_ZETACHAIN_TESTNET : Nat := 7001

/-- `generate_token_id` (`lib.rs`): sequential policy, ignores the mint. -/
def generate_token_id (_mint : Nat) (next_token_id : Nat) : Nat :=
  next_token_id

instance {ε α : Type} [DecidableEq ε] [DecidableEq α] :
    DecidableEq (Except ε α) := fun x y =>
  match x, y with
  | .error a, .error b =>
    if h : a = b then isTrue (by rw [h])
    else isFalse (fun hc => h (Except.error.inj hc))
  | .ok a, .ok b =>
    if h : a = b then isTrue (by rw [h])
    else isFalse (fun hc => h (Except.ok.inj hc))
  | .error _, .ok _ => isFalse (fun hc => nomatch hc)
  | .ok _, .error _ => isFalse (fun hc => nomatch hc)

instance : DecidableEq (List Nat × List Nat × Nat × List Nat × List Nat) :=
  inferInstance

instance : DecidableEq
    (Except ProgError (List Nat × List Nat × Nat × List Nat × List Nat)) :=
  inferInstance

namespace UniversalNFTCoreImpl

/-- `UniversalNFTCoreImpl::encode_cross_chain_message`
(`universal_nft_core.rs`): receiver word, token-id word, the offset `96`
written as an 8-byte `u64`, sender word, 8-byte `u64` length, URI bytes,
zero padding of the URI to a 32-byte multiple. -/
def encode_cross_chain_message (receiver : List Nat) (token_id : Nat)
    (uri : List Nat) (sender : List Nat) : List Nat :=
  pad12 ++ receiver ++ word32 token_id ++ beBytes8 96 ++ pad12 ++ sender ++
    beBytes8 uri.length ++ uri ++
    List.replicate ((32 - uri.length % 32) % 32) 0

/-- `UniversalNFTCoreImpl::decode_cross_chain_message`
(`universal_nft_core.rs`). Result `none` marks a Rust slice-indexing
abort; `some (Except.error e)` the typed error; `some (Except.ok v)` the
decoded `(destination, receiver, token_id, uri, sender)` tuple. -/
def decode_cross_chain_message (message : List Nat) :
    Option (Except ProgError
      (List Nat × List Nat × Nat × List Nat × List Nat)) :=
  if message.length < 96 then some (Except.error .InvalidMessageFormat) else
  match checkedSlice message 12 20 with
  | none => none
  | some receiver =>
    match checkedSlice message 32 8 with
    | none => none
    | some tidBytes =>
      match checkedSlice message 64 8 with
      | none => none
      | some offBytes =>
        if message.length < beToNat offBytes + 8 then
          some (Except.error .InvalidMessageFormat) else
        match checkedSlice message (beToNat offBytes) 8 with
        | none => none
        | some lenBytes =>
          if message.length < beToNat offBytes + 8 + beToNat lenBytes then
            some (Except.error .InvalidMessageFormat) else
          match checkedSlice message (beToNat offBytes + 8)
              (beToNat lenBytes) with
          | none => none
          | some uriBytes =>
            if validUtf8 uriBytes then
              match checkedSlice message 80 20 with
              | none => none
              | some sender =>
                some (Except.ok
                  (zeroAddr20, receiver, beToNat tidBytes, uriBytes, sender))
            else some (Except.error .InvalidUriEncoding)

end UniversalNFTCoreImpl

/-- `abi_encode_message` (`lib.rs`): destination word, receiver word,
token-id word, the offset `160` written as an 8-byte `u64`, sender word,
8-byte `u64` length, URI bytes, zero padding of the URI to a 32-byte
multiple. -/
def abi_encode_message (destination receiver : List Nat) (token_id : Nat)
    (uri : List Nat) (sender : List Nat) : List Nat :=
  pad12 ++ destination ++ pad12 ++ receiver ++ word32 token_id ++
    beBytes8 160 ++ pad12 ++ sender ++ beBytes8 uri.length ++ uri ++
    List.replicate ((32 - uri.length % 32) % 32) 0

/-- The inline decoding performed by `receive_cross_chain_message`
(`lib.rs` lines 386-390): raw indexing `message[44..64]`,
`message[96..104]`, `message[128..136]`, `message[off..off+8]`,
`message[off+8..off+8+len]` plus `String::from_utf8(..).unwrap()`.
`none` marks the abort of an out-of-range indexing or of the `unwrap` on
invalid UTF-8. -/
def receive_decode_msg (message : List Nat) :
    Option (List Nat × Nat × List Nat) :=
  match checkedSlice message 44 20 with
  | none => none
  | some receiver_evm =>
    match checkedSlice message 96 8 with
    | none => none
    | some tidBytes =>
      match checkedSlice message 128 8 with
      | none => none
      | some offBytes =>
        match checkedSlice message (beToNat offBytes) 8 with
        | none => none
        | some lenBytes =>
          match checkedSlice message (beToNat offBytes + 8)
              (beToNat lenBytes) with
          | none => none
          | some uriBytes =>
            if validUtf8 uriBytes then
              some (receiver_evm, beToNat tidBytes, uriBytes)
            else none

/-- `create_mint_and_nft` (`lib.rs`): the paused guard, the
`require_eq!(token_id, next_token_id)` check, the checked counter
increment, the mint of 1 unit, and the `NFTOrigin` record write. The
`require_keys_eq!` PDA comparison is modelled by the boolean `pda_ok`;
the metadata CPIs touch no program state. -/
def create_mint_and_nft (s : ProgramState) (uri : List Nat)
    (_decimals : Nat) (token_id : Nat) (now : Int) (mintKey : Nat)
    (pda_ok : Bool) : Except ProgError (ProgramState × NFTOrigin) :=
  if s.paused then .error .ProgramPaused
  else if token_id ≠ s.next_token_id then .error .NextTokenIdMismatch
  else
    match checkedAdd64 s.next_token_id 1 with
    | none => .error .TokenIdOverflow
    | some n =>
      if pda_ok then
        .ok ({ s with next_token_id := n },
             { token_id := generate_token_id mintKey s.next_token_id
             , origin_chain := CHAIN_ID_SOLANA_DEVNET
             , origin_token_id := generate_token_id mintKey s.next_token_id
             , metadata_uri := uri
             , mint := mintKey
             , created_at := now })
      else .error .NFTOriginNotFound

/-- `initiate_cross_chain_transfer` (`lib.rs`): paused guard, burn of
1 unit (CPI), then the gateway relay of the `abi_encode_message` payload
built from the `NFTOrigin` record, with receiver
`destination_owner[0..20]` and sender hard-coded to `[0u8; 20]`. The
returned bytes are the relayed payload. -/
def initiate_cross_chain_transfer (s : ProgramState) (_token_id : Nat)
    (zrc20_address : List Nat) (destination_owner : List Nat)
    (nft_origin : NFTOrigin) : Except ProgError (List Nat) :=
  if s.paused then .error .ProgramPaused
  else
    .ok (abi_encode_message zrc20_address (destination_owner.take 20)
      nft_origin.token_id nft_origin.metadata_uri zeroAddr20)

/-- The observable effect of a successful `receive_cross_chain_message`
(`lib.rs`): the written `NFTOrigin` record, the token account credited
with the minted unit (its authority is the `mint_authority` signer, per
the `associated_token::authority = mint_authority` constraint on
`recipient_token_account`), and the recipient pubkey placed in the
emitted event (the decoded 20-byte receiver left-padded to 32 bytes). -/
structure ReceiveResult where
  state : ProgramState
  origin : NFTOrigin
  recipient_token_account_authority : Nat
  minted_amount : Nat
  event_recipient : List Nat
  deriving DecidableEq

/-- `receive_cross_chain_message` (`lib.rs`): paused guard, the inline
decode (`receive_decode_msg`), the `NFTOrigin` upsert with
`origin_chain` set to `CHAIN_ID_ZETACHAIN_TESTNET`, and the mint of
1 unit to `recipient_token_account`. -/
def receive_cross_chain_message (s : ProgramState) (message : List Nat)
    (mintKey mint_authority : Nat) (now : Int) :
    Option (Except ProgError ReceiveResult) :=
  if s.paused then some (.error .ProgramPaused)
  else
    match receive_decode_msg message with
    | none => none
    | some (receiver_evm, token_id, uri) =>
      some (.ok
        { state := s
        , origin :=
            { token_id := token_id
            , origin_chain := CHAIN_ID_ZETACHAIN_TESTNET
            , origin_token_id := token_id
            , metadata_uri := uri
            , mint := mintKey
            , created_at := now }
        , recipient_token_account_authority := mint_authority
        , minted_amount := 1
        , event_recipient := pad12 ++ receiver_evm })

/-- `pause` (`lib.rs`): owner check, then set `paused`. -/
def pause (s : ProgramState) (admin : Nat) :
    Except ProgError ProgramState :=
  if admin ≠ s.owner then .error .Unauthorized
  else .ok { s with paused := true }

/-- `unpause` (`lib.rs`): owner check, then clear `paused`. -/
def unpause (s : ProgramState) (admin : Nat) :
    Except ProgError ProgramState :=
  if admin ≠ s.owner then .error .Unauthorized
  else .ok { s with paused := false }

namespace UniversalNFT

/-- `UniversalNFT::create_mint_and_nft` (`universal_nft.rs`): the
`require_eq!` counter check is commented out in this variant; the
declared `token_id` is used directly and `next_token_id` is set to
`token_id + 1` (checked). -/
def create_mint_and_nft (s : ProgramState) (uri : List Nat)
    (_decimals : Nat) (token_id : Nat) (now : Int) (mintKey : Nat) :
    Except ProgError (ProgramState × NFTOrigin) :=
  if s.paused then .error .ProgramPaused
  else
    match checkedAdd64 token_id 1 with
    | none => .error .TokenIdOverflow
    | some n =>
      .ok ({ s with next_token_id := n },
           { token_id := generate_token_id mintKey token_id
           , origin_chain := CHAIN_ID_SOLANA_DEVNET
           , origin_token_id := generate_token_id mintKey token_id
           , metadata_uri := uri
           , mint := mintKey
           , created_at := now })

/-- `UniversalNFT::transfer_cross_chain` (`universal_nft.rs`): paused
guard, ownership check on the user's token balance, burn (CPI), then the
gateway relay of the `UniversalNFTCoreImpl` encoding of the origin
record with sender hard-coded to `[0u8; 20]`. The returned bytes are the
relayed payload. -/
def transfer_cross_chain (s : ProgramState) (_token_id : Nat)
    (receiver _destination : List Nat) (nft_origin : NFTOrigin)
    (user_amount : Nat) : Except ProgError (List Nat) :=
  if s.paused then .error .ProgramPaused
  else if user_amount = 0 then .error .InsufficientTokens
  else
    .ok (UniversalNFTCoreImpl.encode_cross_chain_message receiver
      nft_origin.token_id nft_origin.metadata_uri zeroAddr20)

/-- `UniversalNFT::set_connected_contract` (`universal_nft.rs` lines
313-340): the authorization check compares `admin.key()` with
`admin.key()` itself (not with `program_state.owner`); then requires a
nonempty contract address. No mapping is stored; the call only emits an
event. -/
def set_connected_contract (_s : ProgramState) (admin : Nat)
    (_zrc20 contract_address : List Nat) : Except ProgError Unit :=
  if admin ≠ admin then .error .Unauthorized
  else if contract_address = [] then .error .InvalidDestination
  else .ok ()

end UniversalNFT

/-! ### Concrete fixtures used by the claim theorems -/

/-- A live program state: owner `0`, counter `0`, not paused. -/
def s0 : ProgramState :=
  { owner := 0, gateway := 0, universal_nft_contract := []
  , next_token_id := 0, paused := false }

/-- A paused program state with owner `0`. -/
def sP : ProgramState := { s0 with paused := true }

/-- A live state whose counter is at `100`. -/
def s100 : ProgramState := { s0 with next_token_id := 100 }

/-- A live state whose counter sits at `u64::MAX`. -/
def sMax : ProgramState := { s0 with next_token_id := u64MAX }

/-- A 20-byte receiver address of `7`s. -/
def r7 : List Nat := List.replicate 20 7

/-- A 96-byte message whose declared URI offset is `80`: every explicit
length check of `decode_cross_chain_message` passes, but the final
`message[80..100]` sender read runs past the end of the buffer. -/
def badMsg96 : List Nat :=
  List.replicate 64 0 ++ beBytes8 80 ++ List.replicate 24 0

/-- A 136-byte inbound message for the `lib.rs` inline decoder: receiver
bytes `1` at `[44..64]`, token id `0`, URI offset `0`, URI length `0`. -/
def msgA : List Nat :=
  List.replicate 44 0 ++ List.replicate 20 1 ++ List.replicate 72 0

/-- Like `msgA` with receiver bytes `2`. -/
def msgB : List Nat :=
  List.replicate 44 0 ++ List.replicate 20 2 ++ List.replicate 72 0

/-- A 32-byte zero destination owner. -/
def d32 : List Nat := List.replicate 32 0

/-- An origin record for token id `1` with an empty URI. -/
def originA : NFTOrigin :=
  { token_id := 1, origin_chain := 901, origin_token_id := 1
  , metadata_uri := [], mint := 0, created_at := 0 }

/-- The sender recovered when the core decoder reads an
`abi_encode_message` payload for token id `1`: the token-id bytes land in
the sender field. -/
def senderC : List Nat :=
  List.replicate 15 0 ++ [1] ++ List.replicate 4 0

/-! ### Claim theorems -/

/-- C1: the claim says decoding is total, bounds-checked and never aborts
with an out-of-bounds access. It is false: the inline decoder of
`receive_cross_chain_message` aborts on the empty message (its first read
is the unchecked `message[44..64]`), and `decode_cross_chain_message`
aborts on a 96-byte message declaring URI offset `80`, because the sender
read `message[80..100]` is performed with no `>= 100` length check. -/
theorem C1_decoders_abort_out_of_bounds :
    receive_decode_msg [] = none ∧
    UniversalNFTCoreImpl.decode_cross_chain_message badMsg96 = none := by
  decide

/-- C2: the round-trip law `decode (encode r t u s) = ok (0, r, t, u, s)`
fails: for receiver `r7`, token id `1`, URI `"a"`, zero sender, decoding
the encoded bytes returns token id `0` and an empty URI, because the
decoder reads the token id at bytes `32..40` (the top of the token-id
word) and the URI length at bytes `96..104` (inside the sender word). -/
theorem C2_roundtrip_fails :
    UniversalNFTCoreImpl.decode_cross_chain_message
        (UniversalNFTCoreImpl.encode_cross_chain_message r7 1 [97] zeroAddr20)
      ≠ some (Except.ok (zeroAddr20, r7, 1, [97], zeroAddr20)) ∧
    UniversalNFTCoreImpl.decode_cross_chain_message
        (UniversalNFTCoreImpl.encode_cross_chain_message r7 1 [97] zeroAddr20)
      = some (Except.ok (zeroAddr20, r7, 0, [], zeroAddr20)) := by
  decide

/-- C3: the claim says the encoder writes the URI offset as a 32-byte
big-endian word of value 160 and produces a total length that is a
multiple of 32. It is false: `abi_encode_message` writes the offset as an
8-byte `u64` at bytes `96..104`, its output for an empty URI is 144 bytes
(`144 % 32 = 16`), and the core encoder's output is 112 bytes. -/
theorem C3_encoding_not_word_aligned :
    (abi_encode_message zeroAddr20 zeroAddr20 0 [] zeroAddr20).length
      = 144 ∧
    (abi_encode_message zeroAddr20 zeroAddr20 0 [] zeroAddr20).length % 32
      ≠ 0 ∧
    slice (abi_encode_message zeroAddr20 zeroAddr20 0 [] zeroAddr20) 96 8
      = beBytes8 160 ∧
    slice (abi_encode_message zeroAddr20 zeroAddr20 0 [] zeroAddr20) 96 32
      ≠ word32 160 ∧
    (UniversalNFTCoreImpl.encode_cross_chain_message zeroAddr20 0 []
        zeroAddr20).length % 32 ≠ 0 := by
  decide

/-- C4: `receive_cross_chain_message` checks no sender and consults no
`ConnectedContract` registry: whenever the message decodes at all, the
receive succeeds and mints 1 unit, for any message sender whatsoever. -/
theorem C4_receive_checks_no_sender (s : ProgramState) (m : List Nat)
    (mintKey mint_authority : Nat) (now : Int) (receiver_evm : List Nat)
    (token_id : Nat) (uri : List Nat) (hp : s.paused = false)
    (hdec : receive_decode_msg m = some (receiver_evm, token_id, uri)) :
    receive_cross_chain_message s m mintKey mint_authority now
      = some (.ok
        { state := s
        , origin :=
            { token_id := token_id
            , origin_chain := CHAIN_ID_ZETACHAIN_TESTNET
            , origin_token_id := token_id
            , metadata_uri := uri
            , mint := mintKey
            , created_at := now }
        , recipient_token_account_authority := mint_authority
        , minted_amount := 1
        , event_recipient := pad12 ++ receiver_evm }) := by
  simp [receive_cross_chain_message, hp, hdec]

/-- Witness for C4 at the concrete message `msgA`. -/
theorem C4_receive_checks_no_sender_witness :
    receive_cross_chain_message s0 msgA 9 5 0
      = some (.ok
        { state := s0
        , origin :=
            { token_id := 0
            , origin_chain := CHAIN_ID_ZETACHAIN_TESTNET
            , origin_token_id := 0
            , metadata_uri := []
            , mint := 9
            , created_at := 0 }
        , recipient_token_account_authority := 5
        , minted_amount := 1
        , event_recipient := pad12 ++ List.replicate 20 1 }) :=
  C4_receive_checks_no_sender s0 msgA 9 5 0 (List.replicate 20 1) 0 []
    rfl (by decide)

/-- C5: the claim says a successful receive mints 1 unit to the decoded
receiver and records the origin chain decoded from the message. In the
code the minted-to token account is the `mint_authority` signer's
associated account (here authority `5`, although the decoded receiver is
the `2`-bytes address), and `origin_chain` is hard-coded to
`CHAIN_ID_ZETACHAIN_TESTNET = 7001`, which appears nowhere in the
message. -/
theorem C5_receive_effects :
    receive_cross_chain_message s0 msgB 9 5 0
      = some (.ok
        { state := s0
        , origin :=
            { token_id := 0, origin_chain := 7001, origin_token_id := 0
            , metadata_uri := [], mint := 9, created_at := 0 }
        , recipient_token_account_authority := 5
        , minted_amount := 1
        , event_recipient := pad12 ++ List.replicate 20 2 }) := by
  decide

/-- C6 counterexample: `UniversalNFT::create_mint_and_nft` accepts a
declared token id (`5`) different from `next_token_id` (`0`) and succeeds,
setting the counter to `6`; the claim says every such mint fails with
`NextTokenIdMismatch`. -/
theorem C6_counterexample :
    UniversalNFT.create_mint_and_nft s0 [] 0 5 0 0
      = .ok ({ s0 with next_token_id := 6 },
             { token_id := 5, origin_chain := 901, origin_token_id := 5
             , metadata_uri := [], mint := 0, created_at := 0 }) ∧
    (5 : Nat) ≠ s0.next_token_id := by
  decide

/-- C6 (amended): the `lib.rs` entry point `create_mint_and_nft` does
enforce the check: a declared token id different from `next_token_id`
fails with `NextTokenIdMismatch` (and, the error aborting the
transaction, no state is mutated). -/
theorem C6_mismatch_fails (s : ProgramState) (uri : List Nat)
    (decimals token_id : Nat) (now : Int) (mintKey : Nat) (pda_ok : Bool)
    (hp : s.paused = false) (hne : token_id ≠ s.next_token_id) :
    create_mint_and_nft s uri decimals token_id now mintKey pda_ok
      = .error .NextTokenIdMismatch := by
  simp [create_mint_and_nft, hp, hne]

/-- Witness for C6 at a concrete state and mismatching id. -/
theorem C6_mismatch_fails_witness :
    create_mint_and_nft s0 [] 0 5 0 0 true
      = .error .NextTokenIdMismatch :=
  C6_mismatch_fails s0 [] 0 5 0 0 true rfl (by decide)

/-- C7 counterexample: `UniversalNFT::create_mint_and_nft` at counter
`100` with declared id `5` succeeds and sets the counter to `6`,
decreasing it; the claim says the counter is never decremented. -/
theorem C7_counterexample :
    UniversalNFT.create_mint_and_nft s100 [] 0 5 0 0
      = .ok ({ s100 with next_token_id := 6 },
             { token_id := 5, origin_chain := 901, origin_token_id := 5
             , metadata_uri := [], mint := 0, created_at := 0 }) ∧
    ({ s100 with next_token_id := 6 } : ProgramState).next_token_id
      < s100.next_token_id := by
  decide

/-- C7 (amended): for the `lib.rs` entry point `create_mint_and_nft`,
every successful mint increments `next_token_id` by exactly 1, and a mint
at a saturated counter (`u64::MAX`) fails with `TokenIdOverflow` rather
than wrapping. -/
theorem C7_lib_mint_increments (s : ProgramState) (uri : List Nat)
    (decimals token_id : Nat) (now : Int) (mintKey : Nat)
    (pda_ok : Bool) :
    (∀ s' rec,
        create_mint_and_nft s uri decimals token_id now mintKey pda_ok
          = .ok (s', rec) →
        s'.next_token_id = s.next_token_id + 1) ∧
    (s.paused = false → s.next_token_id = u64MAX → token_id = u64MAX →
        create_mint_and_nft s uri decimals token_id now mintKey pda_ok
          = .error .TokenIdOverflow) := by
  constructor
  · intro s' rec h
    unfold create_mint_and_nft checkedAdd64 at h
    split at h
    · simp at h
    · split at h
      · simp at h
      · split at h
        · simp at h
        · next n heq =>
          split at h
          · rw [Except.ok.injEq, Prod.mk.injEq] at h
            obtain ⟨hs, _⟩ := h
            split at heq
            · rw [Option.some.injEq] at heq
              rw [← hs, ← heq]
            · exact absurd heq (by simp)
          · simp at h
  · intro hp hmax htid
    simp [create_mint_and_nft, hp, htid, hmax, checkedAdd64, u64MAX]

/-- Witness for C7: a successful mint at counter `0` yields counter `1`,
and a mint at counter `u64::MAX` fails with `TokenIdOverflow`. -/
theorem C7_lib_mint_increments_witness :
    ({ s0 with next_token_id := 1 } : ProgramState).next_token_id
      = s0.next_token_id + 1 ∧
    create_mint_and_nft sMax [] 0 u64MAX 0 0 true
      = .error .TokenIdOverflow :=
  ⟨(C7_lib_mint_increments s0 [] 0 0 0 0 true).1
      { s0 with next_token_id := 1 }
      { token_id := 0, origin_chain := 901, origin_token_id := 0
      , metadata_uri := [], mint := 0, created_at := 0 }
      (by decide),
   (C7_lib_mint_increments sMax [] 0 u64MAX 0 0 true).2 rfl rfl rfl⟩

/-- C8: the claim says every admin setter fails with `Unauthorized` for a
non-owner caller. It is false for `set_connected_contract`, whose
authorization `require!` compares the caller's key with itself, so any
caller whatsoever succeeds (given a nonempty contract address). -/
theorem C8_set_connected_contract_skips_owner_check (s : ProgramState)
    (admin : Nat) (zrc20 contract_address : List Nat)
    (_hadmin : admin ≠ s.owner) (hca : contract_address ≠ []) :
    UniversalNFT.set_connected_contract s admin zrc20 contract_address
      = .ok () := by
  simp [UniversalNFT.set_connected_contract, hca]

/-- Witness for C8: caller `1` is not the owner (`0`) yet the call
succeeds. -/
theorem C8_set_connected_contract_skips_owner_check_witness :
    UniversalNFT.set_connected_contract s0 1 [] [2] = .ok () :=
  C8_set_connected_contract_skips_owner_check s0 1 [] [2] (by decide)
    (by decide)

/-- C9: while `paused` is set, `create_mint_and_nft`,
`initiate_cross_chain_transfer` and `receive_cross_chain_message` all
fail with `ProgramPaused` as their first guard (for every input, before
any decoding), while `pause`/`unpause` still succeed for the owner and
fail with `Unauthorized` for any other caller. -/
theorem C9_paused_gating (s : ProgramState) (uri : List Nat)
    (decimals token_id : Nat) (now : Int) (mintKey : Nat) (pda_ok : Bool)
    (zrc20 destination_owner : List Nat) (o : NFTOrigin) (msg : List Nat)
    (mint_authority : Nat) (a b : Nat) (hp : s.paused = true)
    (ha : a = s.owner) (hb : b ≠ s.owner) :
    create_mint_and_nft s uri decimals token_id now mintKey pda_ok
      = .error .ProgramPaused ∧
    initiate_cross_chain_transfer s token_id zrc20 destination_owner o
      = .error .ProgramPaused ∧
    receive_cross_chain_message s msg mintKey mint_authority now
      = some (.error .ProgramPaused) ∧
    pause s a = .ok { s with paused := true } ∧
    unpause s a = .ok { s with paused := false } ∧
    pause s b = .error .Unauthorized ∧
    unpause s b = .error .Unauthorized := by
  refine ⟨?_, ?_, ?_, ?_, ?_, ?_, ?_⟩ <;>
    simp [create_mint_and_nft, initiate_cross_chain_transfer,
      receive_cross_chain_message, pause, unpause, hp, ha, hb]

/-! ### Slicing lemmas for the C10 round-trip argument -/

lemma slice_shift (A B : List Nat) (p n : Nat) :
    slice (A ++ B) (A.length + p) n = slice B p n := by
  unfold slice
  rw [List.drop_append_eq_append_drop,
    List.drop_eq_nil_of_le (by omega), Nat.add_sub_cancel_left]
  simp

lemma slice_zero_take (A B : List Nat) (n : Nat) (h : n ≤ A.length) :
    slice (A ++ B) 0 n = A.take n := by
  unfold slice
  rw [List.drop_zero, List.take_append_of_le_length h]

/-- Decoding a core-encoded message with a zero sender: the receiver
comes back unchanged, the token id reads as `0` (bytes `32..40` are the
top of the token-id word), the URI reads as empty (bytes `96..104` lie
inside the zero sender word), and the sender field reads the zero bytes
at `80..100`. -/
lemma decode_core_encode_core (r u : List Nat) (t : Nat)
    (hr : r.length = 20) :
    UniversalNFTCoreImpl.decode_cross_chain_message
        (UniversalNFTCoreImpl.encode_cross_chain_message r t u zeroAddr20)
      = some (Except.ok (zeroAddr20, r, 0, [], zeroAddr20)) := by
  set T7 : List Nat :=
    u ++ List.replicate ((32 - u.length % 32) % 32) 0 with hT7
  set T6 : List Nat := beBytes8 u.length ++ T7 with hT6
  set T5 : List Nat := zeroAddr20 ++ T6 with hT5
  set T4 : List Nat := pad12 ++ T5 with hT4
  set T3 : List Nat := beBytes8 96 ++ T4 with hT3
  set T2 : List Nat := word32 t ++ T3 with hT2
  set T1 : List Nat := r ++ T2 with hT1
  set m : List Nat := pad12 ++ T1 with hm
  have hmeq :
      UniversalNFTCoreImpl.encode_cross_chain_message r t u zeroAddr20
        = m := by
    rw [hm, hT1, hT2, hT3, hT4, hT5, hT6, hT7]
    simp only [UniversalNFTCoreImpl.encode_cross_chain_message,
      List.append_assoc]
  rw [hmeq]
  have hp12 : pad12.length = 12 := by simp [pad12]
  have hw32 : (word32 t).length = 32 := by simp [word32, beBytes8]
  have hb8 : ∀ k, (beBytes8 k).length = 8 := by intro k; simp [beBytes8]
  have hlen : m.length = 112 + u.length + (32 - u.length % 32) % 32 := by
    rw [hm, hT1, hT2, hT3, hT4, hT5, hT6, hT7]
    simp [pad12, zeroAddr20, word32, beBytes8, hr]
    omega
  have e12 : slice m 12 20 = r := by
    rw [hm]
    have h1 := slice_shift pad12 T1 0 20
    rw [hp12] at h1
    norm_num at h1
    rw [h1, hT1, slice_zero_take r T2 20 (by omega),
      List.take_of_length_le (by omega)]
  have e32 : slice m 32 8 = List.replicate 8 0 := by
    rw [hm]
    have h1 := slice_shift pad12 T1 20 8
    rw [hp12] at h1
    norm_num at h1
    rw [h1, hT1]
    have h2 := slice_shift r T2 0 8
    rw [hr] at h2
    norm_num at h2
    rw [h2, hT2]
    unfold word32
    rw [List.append_assoc, slice_zero_take _ _ 8 (by simp)]
    decide
  have e64 : slice m 64 8 = beBytes8 96 := by
    rw [hm]
    have h1 := slice_shift pad12 T1 52 8
    rw [hp12] at h1
    norm_num at h1
    rw [h1, hT1]
    have h2 := slice_shift r T2 32 8
    rw [hr] at h2
    norm_num at h2
    rw [h2, hT2]
    have h3 := slice_shift (word32 t) T3 0 8
    rw [hw32] at h3
    norm_num at h3
    rw [h3, hT3, slice_zero_take _ _ 8 (by rw [hb8]),
      List.take_of_length_le (by rw [hb8])]
  have e96 : slice m 96 8 = List.replicate 8 0 := by
    rw [hm]
    have h1 := slice_shift pad12 T1 84 8
    rw [hp12] at h1
    norm_num at h1
    rw [h1, hT1]
    have h2 := slice_shift r T2 64 8
    rw [hr] at h2
    norm_num at h2
    rw [h2, hT2]
    have h3 := slice_shift (word32 t) T3 32 8
    rw [hw32] at h3
    norm_num at h3
    rw [h3, hT3]
    have h4 := slice_shift (beBytes8 96) T4 24 8
    rw [hb8] at h4
    norm_num at h4
    rw [h4, hT4]
    have h5 := slice_shift pad12 T5 12 8
    rw [hp12] at h5
    norm_num at h5
    rw [h5, hT5]
    have hza : zeroAddr20 = List.replicate 12 0 ++ List.replicate 8 0 := by
      decide
    rw [hza, List.append_assoc]
    have h6 := slice_shift (List.replicate 12 0)
      (List.replicate 8 0 ++ T6) 0 8
    simp only [List.length_replicate, Nat.add_zero] at h6
    rw [h6, slice_zero_take _ _ 8 (by simp)]
    decide
  have e80 : slice m 80 20 = zeroAddr20 := by
    rw [hm]
    have h1 := slice_shift pad12 T1 68 20
    rw [hp12] at h1
    norm_num at h1
    rw [h1, hT1]
    have h2 := slice_shift r T2 48 20
    rw [hr] at h2
    norm_num at h2
    rw [h2, hT2]
    have h3 := slice_shift (word32 t) T3 16 20
    rw [hw32] at h3
    norm_num at h3
    rw [h3, hT3]
    have h4 := slice_shift (beBytes8 96) T4 8 20
    rw [hb8] at h4
    norm_num at h4
    rw [h4, hT4]
    have hpa : pad12 = List.replicate 8 0 ++ List.replicate 4 0 := by
      decide
    rw [hpa, List.append_assoc]
    have h5 := slice_shift (List.replicate 8 0)
      (List.replicate 4 0 ++ T5) 0 20
    simp only [List.length_replicate, Nat.add_zero] at h5
    rw [h5, hT5]
    rw [← List.append_assoc]
    have hmerge : List.replicate 4 (0:Nat) ++ zeroAddr20
        = List.replicate 24 0 := by decide
    rw [hmerge, slice_zero_take _ _ 20 (by simp)]
    decide
  have s12 : checkedSlice m 12 20 = some r := by
    simp only [checkedSlice]
    rw [if_pos (by omega), e12]
  have s32 : checkedSlice m 32 8 = some (List.replicate 8 0) := by
    simp only [checkedSlice]
    rw [if_pos (by omega), e32]
  have s64 : checkedSlice m 64 8 = some (beBytes8 96) := by
    simp only [checkedSlice]
    rw [if_pos (by omega), e64]
  have s96 : checkedSlice m 96 8 = some (List.replicate 8 0) := by
    simp only [checkedSlice]
    rw [if_pos (by omega), e96]
  have s80 : checkedSlice m 80 20 = some zeroAddr20 := by
    simp only [checkedSlice]
    rw [if_pos (by omega), e80]
  have s104 : checkedSlice m (96 + 8) 0 = some [] := by
    simp only [checkedSlice]
    rw [if_pos (by omega)]
    simp [slice]
  have s104n : checkedSlice m 104 0 = some [] := s104
  have hbe96 : beToNat (beBytes8 96) = 96 := by decide
  have hbe0 : beToNat (List.replicate 8 0) = 0 := by decide
  have hutf : validUtf8 [] = true := rfl
  have hc1 : ¬ m.length < 96 := by omega
  have hc2 : ¬ m.length < 96 + 8 := by omega
  have hc2n : ¬ m.length < 104 := by omega
  have hc3 : ¬ m.length < 96 + 8 + 0 := by omega
  have hc3n : ¬ m.length < 104 + 0 := by omega
  simp only [UniversalNFTCoreImpl.decode_cross_chain_message, hc1, hc2,
    hc2n, hc3, hc3n, s12, s32, s64, s96, s80, s104, s104n, hbe96, hbe0,
    hutf, if_false, if_true, ite_false, ite_true]

/-- C10 counterexample: the outbound payload of
`initiate_cross_chain_transfer` for token id `1` (an `abi_encode_message`
encoding), decoded with the core decoder used by the `on_revert` /
`on_abort` handlers, yields a sender equal to `senderC` — the token-id
bytes land at sender bytes `8..16` — which is not the zero address; the
claim says the recovered sender of any outbound message under any decode
is the zero address. -/
theorem C10_counterexample :
    initiate_cross_chain_transfer s0 1 zeroAddr20 d32 originA
      = .ok (abi_encode_message zeroAddr20 zeroAddr20 1 [] zeroAddr20) ∧
    UniversalNFTCoreImpl.decode_cross_chain_message
        (abi_encode_message zeroAddr20 zeroAddr20 1 [] zeroAddr20)
      = some (Except.ok (zeroAddr20, zeroAddr20, 0, [], senderC)) ∧
    senderC ≠ zeroAddr20 := by
  decide

/-- C10 (amended): both outbound paths pass `[0u8; 20]` as the sender to
their encoder — `initiate_cross_chain_transfer` to `abi_encode_message`
and `UniversalNFT::transfer_cross_chain` to the core encoder — and
decoding a core-encoded outbound message with the core decoder (the
`on_revert`/`on_abort` path) recovers the zero-address sender; the
originating user's address is never recoverable. (Core-decoding the
`abi_encode_message` payload instead recovers the token-id bytes in the
sender field, zero only for token id 0 — see the counterexample.) -/
theorem C10_outbound_sender_is_zero :
    (∀ (s : ProgramState) (token_id : Nat) (zrc20 dOwner : List Nat)
        (o : NFTOrigin), s.paused = false →
        initiate_cross_chain_transfer s token_id zrc20 dOwner o
          = .ok (abi_encode_message zrc20 (dOwner.take 20) o.token_id
              o.metadata_uri zeroAddr20)) ∧
    (∀ (s : ProgramState) (token_id : Nat) (receiver dst : List Nat)
        (o : NFTOrigin) (amt : Nat), s.paused = false → amt ≠ 0 →
        UniversalNFT.transfer_cross_chain s token_id receiver dst o amt
          = .ok (UniversalNFTCoreImpl.encode_cross_chain_message receiver
              o.token_id o.metadata_uri zeroAddr20)) ∧
    (∀ (r u : List Nat) (t : Nat), r.length = 20 →
        UniversalNFTCoreImpl.decode_cross_chain_message
            (UniversalNFTCoreImpl.encode_cross_chain_message r t u
              zeroAddr20)
          = some (Except.ok (zeroAddr20, r, 0, [], zeroAddr20))) := by
  refine ⟨?_, ?_, ?_⟩
  · intro s token_id zrc20 dOwner o hp
    simp [initiate_cross_chain_transfer, hp]
  · intro s token_id receiver dst o amt hp hamt
    simp [UniversalNFT.transfer_cross_chain, hp, hamt]
  · intro r u t hr
    exact decode_core_encode_core r u t hr

/-- Witness for C10 at concrete inputs. -/
theorem C10_outbound_sender_is_zero_witness :
    initiate_cross_chain_transfer s0 1 zeroAddr20 d32 originA
      = .ok (abi_encode_message zeroAddr20 (d32.take 20) originA.token_id
          originA.metadata_uri zeroAddr20) ∧
    UniversalNFT.transfer_cross_chain s0 1 r7 r7 originA 1
      = .ok (UniversalNFTCoreImpl.encode_cross_chain_message r7
          originA.token_id originA.metadata_uri zeroAddr20) ∧
    UniversalNFTCoreImpl.decode_cross_chain_message
        (UniversalNFTCoreImpl.encode_cross_chain_message r7 3 [97]
          zeroAddr20)
      = some (Except.ok (zeroAddr20, r7, 0, [], zeroAddr20)) :=
  ⟨C10_outbound_sender_is_zero.1 s0 1 zeroAddr20 d32 originA rfl,
   C10_outbound_sender_is_zero.2.1 s0 1 r7 r7 originA 1 rfl
     (by decide),
   C10_outbound_sender_is_zero.2.2 r7 [97] 3 (by decide)⟩

/-- Witness for C9 at a concrete paused state, owner `0`, outsider `1`. -/
theorem C9_paused_gating_witness :
    create_mint_and_nft sP [] 0 0 0 0 true = .error .ProgramPaused ∧
    initiate_cross_chain_transfer sP 0 [] d32 originA
      = .error .ProgramPaused ∧
    receive_cross_chain_message sP msgA 0 0 0
      = some (.error .ProgramPaused) ∧
    pause sP 0 = .ok { sP with paused := true } ∧
    unpause sP 0 = .ok { sP with paused := false } ∧
    pause sP 1 = .error .Unauthorized ∧
    unpause sP 1 = .error .Unauthorized :=
  C9_paused_gating sP [] 0 0 0 0 true [] d32 originA msgA 0 0 1 rfl rfl
    (by decide)

end AnchorZeta
